import Mathlib

/-!
Shallow embedding of the integration core of the Gloucester food-premises
dashboard: the Idox Uniform SOAP client (src/soap_client.py), the sync
orchestrator (src/services/uniform_sync.py), the premises import into the
local SQLite cache (src/database.py) and the ad-hoc connection-test route
(src/routes/api.py).

Remote interactions are modelled by explicit environment values: each
remote call either returns a value or raises with a message
(`RemoteCall`).  Python exceptions are modelled with `Except String`;
Python dictionaries whose keys may be absent are modelled with `Option`
fields.  Python truthiness on optional strings is modelled by `pyOr`
(empty string and `none` are falsy).
-/

namespace Uniform

/-- Outcome of one remote SOAP invocation: the transport either delivers a
value or raises an exception carrying a message. -/
inductive RemoteCall (α : Type) where
  | ok (v : α)
  | fault (msg : String)
deriving Repr

/-- Python `a or b` on an optional string: `None` and the empty string are
falsy and select the default. -/
def pyOr (a : Option String) (b : String) : String :=
  match a with
  | some s => if s = "" then b else s
  | none => b

/-- Python `a or b` where both sides are optional strings
(`p.get("tradingName") or p.get("businessName")`). -/
def pyOrOpt (a b : Option String) : Option String :=
  match a with
  | some s => if s = "" then b else some s
  | none => b

/-- Immutable client configuration (`UniformSOAPClient.__init__`). -/
structure ClientConfig where
  wsdlUrl : String
  databaseId : String
  username : String
  password : String
  timeout : Nat
deriving Repr

/-- Mutable session state of a `UniformSOAPClient` instance:
the `_logged_in` flag. -/
structure ClientState where
  loggedIn : Bool
deriving Repr, DecidableEq

/-- Raw `UniformDatabaseAlias` element of the
`GetUniformDatabaseAliases` response. -/
structure RawAlias where
  databaseId : String
  description : String
  isActive : Bool
  uniformWSURL : String
deriving Repr, DecidableEq

/-- Serialized database alias dictionary built by `get_database_aliases`. -/
structure AliasRec where
  database_id : String
  description : String
  is_active : Bool
  url : String
deriving Repr, DecidableEq

/-- Dictionary entry built for each alias in `get_database_aliases`. -/
def serializeAlias (a : RawAlias) : AliasRec :=
  { database_id := a.databaseId
    description := a.description
    is_active := a.isActive
    url := a.uniformWSURL }

/-- Embedding of `UniformSOAPClient.get_database_aliases`: a transport
fault propagates; a `None` (or alias-list-free) response yields the empty
list; otherwise each alias is serialized in order. -/
def get_database_aliases (resp : RemoteCall (Option (List RawAlias))) :
    Except String (List AliasRec) :=
  match resp with
  | .fault m => .error m
  | .ok none => .ok []
  | .ok (some l) => .ok (l.map serializeAlias)

/-- Result dictionary of `UniformSOAPClient.test_connection`. -/
structure ConnStatus where
  connected : Bool
  wsdl_url : String
  databases : Option (List AliasRec)
  error : Option String
deriving Repr

/-- Embedding of `UniformSOAPClient.test_connection`: total; any exception
from `get_database_aliases` is caught and translated into
`connected = false` with the exception text as `error`. -/
def test_connection (cfg : ClientConfig)
    (resp : RemoteCall (Option (List RawAlias))) : ConnStatus :=
  match get_database_aliases resp with
  | .ok aliases =>
      { connected := true
        wsdl_url := cfg.wsdlUrl
        databases := some aliases
        error := none }
  | .error m =>
      { connected := false
        wsdl_url := cfg.wsdlUrl
        databases := none
        error := some m }

/-- Response of the remote `LogonToConnector` call: either the call
completes with a `LogonSuccessful` flag and an optional `Message`, or the
transport raises. -/
inductive LogonResp where
  | ok (logonSuccessful : Bool) (message : Option String)
  | fault (msg : String)
deriving Repr

/-- Observable events of the session lifecycle, used to state how many
times `logoff` runs and which remote calls are issued. -/
inductive Ev where
  | logonCall
  | logoffInvoked
  | logoffRemoteCall
deriving Repr, DecidableEq

/-- Embedding of `UniformSOAPClient.logon`: always issues the remote
`LogonToConnector` call (it never consults the current `_logged_in`
flag); on `LogonSuccessful` it sets the flag and returns `true`; otherwise
it clears the flag and raises `ConnectionError` with the remote message
(falling back to the text `Login failed`); a transport fault propagates
and leaves the flag untouched. -/
def logon (st : ClientState) (resp : LogonResp) :
    Except String Bool × ClientState × List Ev :=
  match resp with
  | .fault m => (.error m, st, [.logonCall])
  | .ok true _ => (.ok true, { st with loggedIn := true }, [.logonCall])
  | .ok false message =>
      (.error ("Uniform login failed: " ++ pyOr message "Login failed"),
       { st with loggedIn := false }, [.logonCall])

/-- Embedding of `UniformSOAPClient.logoff`: a no-op when not logged in;
otherwise it issues `LogoffFromConnector` and, only when that call
returns, clears the `_logged_in` flag; any exception is swallowed (so a
failing remote logoff leaves the flag set). -/
def logoff (st : ClientState) (resp : RemoteCall Unit) :
    ClientState × List Ev :=
  if st.loggedIn then
    match resp with
    | .ok _ => ({ st with loggedIn := false }, [.logoffInvoked, .logoffRemoteCall])
    | .fault _ => (st, [.logoffInvoked, .logoffRemoteCall])
  else (st, [.logoffInvoked])

/-- Embedding of the `UniformSOAPClient.session` context manager:
`logon` runs first (outside the try block, so if it raises the body never
runs and `logoff` is not invoked); when logon succeeds the body executes
and `logoff` runs in the `finally` clause on both the normal and the
raising exit path, after which the body result or exception propagates. -/
def session {α : Type} (st : ClientState) (logonResp : LogonResp)
    (body : Except String α) (logoffResp : RemoteCall Unit) :
    Except String α × ClientState × List Ev :=
  match logon st logonResp with
  | (.error e, st1, evs) => (.error e, st1, evs)
  | (.ok _, st1, evs) =>
      let off := logoff st1 logoffResp
      (body, off.1, evs ++ off.2)

/-- Raw response element of `CheckLIApplicationExistsByReferenceValue`. -/
structure RawExistsResult where
  licenceExists : Bool
  licenceValid : Bool
deriving Repr, DecidableEq

/-- Result dictionary of `check_application_exists`. -/
structure ExistsRec where
  licence_exists : Bool
  licence_valid : Bool
deriving Repr, DecidableEq

/-- Embedding of `UniformSOAPClient.check_application_exists`: a transport
fault propagates to the caller; a `None` response (the remote has no such
record) yields `{licence_exists: false, licence_valid: false}` without
raising; otherwise the two remote booleans are passed through. -/
def check_application_exists (resp : RemoteCall (Option RawExistsResult)) :
    Except String ExistsRec :=
  match resp with
  | .fault m => .error m
  | .ok none => .ok { licence_exists := false, licence_valid := false }
  | .ok (some r) => .ok { licence_exists := r.licenceExists
                          licence_valid := r.licenceValid }

/-- Raw nested `address` dictionary of a sample-premises entry. -/
structure RawAddress where
  line1 : Option String
  line2 : Option String
  town : Option String
  county : Option String
  postcode : Option String
deriving Repr, DecidableEq

/-- Raw nested `lastInspectionScores` dictionary of a sample-premises
entry. -/
structure RawScores where
  hygienicFoodHandling : Option Int
  structureAndCleaning : Option Int
  managementOfFoodSafety : Option Int
deriving Repr, DecidableEq

/-- Raw entry of the `previousActions` list of a sample-premises entry. -/
structure RawAction where
  date : Option String
  actionType : Option String
  detail : Option String
deriving Repr, DecidableEq

/-- Raw sample-premises dictionary in the `sample_premises.json` format
consumed by `database.import_premises`. -/
structure RawPremise where
  premisesRef : Option String
  uprn : Option String
  businessName : Option String
  tradingName : Option String
  businessType : Option String
  businessTypeDetail : Option String
  foodBusinessOperator : Option String
  address : Option RawAddress
  telephone : Option String
  email : Option String
  numberOfFoodHandlers : Option Int
  riskCategory : Option String
  currentFhrsRating : Option Int
  registrationDate : Option String
  lastInspectionDate : Option String
  lastInspectionScores : Option RawScores
  nextInspectionDue : Option String
  tradingHours : Option String
  waterSupply : Option String
  approvalStatus : Option String
  allergenDocumentation : Option Bool
  haccpInPlace : Option Bool
  primaryAuthority : Option String
  notes : Option String
  previousActions : Option (List RawAction)
deriving Repr, DecidableEq

/-- Row of the `premises` table as written by the `INSERT OR REPLACE`
statement in `database.import_premises` (the two timestamp columns,
filled by the SQL datetime-now expression, are not represented). -/
structure PremisesRow where
  premises_ref : Option String
  uprn : Option String
  business_name : Option String
  trading_name : Option String
  business_type : Option String
  business_type_detail : Option String
  food_business_operator : Option String
  address_line1 : String
  address_line2 : String
  town : String
  county : String
  postcode : String
  telephone : Option String
  email : Option String
  number_of_food_handlers : Int
  risk_category : String
  current_fhrs_rating : Option Int
  registration_date : Option String
  last_inspection_date : Option String
  last_hygienic_score : Option Int
  last_structure_score : Option Int
  last_management_score : Option Int
  next_inspection_due : Option String
  trading_hours : Option String
  water_supply : String
  approval_status : String
  allergen_documentation : Int
  haccp_in_place : Int
  primary_authority : Option String
  notes : Option String
deriving Repr, DecidableEq

/-- Tuple bound by the `INSERT OR REPLACE INTO premises` statement of
`database.import_premises`, including all its `.get` defaults. -/
def premisesRowOf (p : RawPremise) : PremisesRow :=
  let scores := p.lastInspectionScores.getD ⟨none, none, none⟩
  let address := p.address.getD ⟨none, none, none, none, none⟩
  { premises_ref := p.premisesRef
    uprn := p.uprn
    business_name := p.businessName
    trading_name := pyOrOpt p.tradingName p.businessName
    business_type := p.businessType
    business_type_detail := p.businessTypeDetail
    food_business_operator := p.foodBusinessOperator
    address_line1 := address.line1.getD ""
    address_line2 := address.line2.getD ""
    town := address.town.getD "Gloucester"
    county := address.county.getD "Gloucestershire"
    postcode := address.postcode.getD ""
    telephone := p.telephone
    email := p.email
    number_of_food_handlers := p.numberOfFoodHandlers.getD 0
    risk_category := p.riskCategory.getD "C"
    current_fhrs_rating := p.currentFhrsRating
    registration_date := p.registrationDate
    last_inspection_date := p.lastInspectionDate
    last_hygienic_score := scores.hygienicFoodHandling
    last_structure_score := scores.structureAndCleaning
    last_management_score := scores.managementOfFoodSafety
    next_inspection_due := p.nextInspectionDue
    trading_hours := p.tradingHours
    water_supply := p.waterSupply.getD "Mains"
    approval_status := p.approvalStatus.getD "Registered"
    allergen_documentation := if p.allergenDocumentation.getD false then 1 else 0
    haccp_in_place := if p.haccpInPlace.getD false then 1 else 0
    primary_authority := p.primaryAuthority
    notes := p.notes }

/-- Local SQLite cache, restricted to the two tables
`database.import_premises` writes: `premises` keyed by `premises_ref`
(the primary key, so `INSERT OR REPLACE` replaces) and
`previous_actions` rows tagged with their `premises_ref`. -/
structure Store where
  premises : List (Option String × PremisesRow)
  previous_actions : List (Option String × RawAction)
deriving Repr, DecidableEq

/-- One SQL write executed by `database.import_premises`, recorded so
that a report count can be compared with what was actually written. -/
inductive WriteOp where
  | premisesInsert (ref : Option String)
  | actionsDelete (ref : Option String)
  | actionInsert (ref : Option String)
deriving Repr, DecidableEq

/-- Predicate picking out the `INSERT OR REPLACE INTO premises` writes. -/
def WriteOp.isPremisesInsert : WriteOp → Bool
  | .premisesInsert _ => true
  | _ => false

/-- Effect of one loop iteration of `database.import_premises`: insert or
replace the premises row keyed by `premisesRef`, delete the previous
actions for that key, then insert each entry of `previousActions`. -/
def importOne (store : Store) (p : RawPremise) : Store × List WriteOp :=
  let row := premisesRowOf p
  let prem := store.premises.filter (fun kv => kv.1 ≠ p.premisesRef) ++ [(p.premisesRef, row)]
  let acts := p.previousActions.getD []
  let pacts := store.previous_actions.filter (fun kv => kv.1 ≠ p.premisesRef)
      ++ acts.map (fun a => (p.premisesRef, a))
  ({ premises := prem, previous_actions := pacts },
   [.premisesInsert p.premisesRef, .actionsDelete p.premisesRef]
     ++ acts.map (fun _ => .actionInsert p.premisesRef))

/-- Embedding of `database.import_premises`: writes every entry of the
list into the local cache and returns the length of the input list. -/
def import_premises (store : Store) (ps : List RawPremise) :
    Store × List WriteOp × Nat :=
  let acc := ps.foldl
    (fun (acc : Store × List WriteOp) p =>
      let step := importOne acc.1 p
      (step.1, acc.2 ++ step.2))
    (store, [])
  (acc.1, acc.2, ps.length)

/-- Environment of one `sync_premises` call: the outcome of the
connectivity probe, of the logon and logoff calls were a session opened,
the content of the bundled `sample_premises.json` dataset (empty list
when the file is absent), and the wall-clock timestamp. -/
structure SyncEnv where
  probeResp : RemoteCall (Option (List RawAlias))
  logonResp : LogonResp
  logoffResp : RemoteCall Unit
  sampleData : List RawPremise
  now : String

/-- Result dictionary of `uniform_sync.sync_premises`. -/
structure SyncResult where
  source : Option String
  count : Nat
  timestamp : String
  errors : List String
deriving Repr

/-- Embedding of `uniform_sync.sync_premises`.  The function is total: no
outcome of the remote connector makes it raise.  When the probe reports
connected it opens a session; the only statement inside the
`with client.session()` block that can raise on this code path is the
logon itself (the body only loads bundled data and writes the cache, and
logoff swallows its own failures), so the `except` branch is reached
exactly when logon fails.  Returns the report together with the final
client state, the final store and the list of SQL writes executed. -/
def sync_premises (cfg : ClientConfig) (env : SyncEnv) (st : ClientState)
    (store : Store) : SyncResult × ClientState × Store × List WriteOp :=
  let connStatus := test_connection cfg env.probeResp
  if connStatus.connected then
    match logon st env.logonResp with
    | (.error e, st1, _) =>
        let sample := env.sampleData
        let imp := if sample.isEmpty then (store, [], 0)
          else import_premises store sample
        ({ source := some "sample-data-fallback"
           count := imp.2.2
           timestamp := env.now
           errors := ["SOAP sync error: " ++ e] },
         st1, imp.1, imp.2.1)
    | (.ok _, st1, _) =>
        let sample := env.sampleData
        if sample.isEmpty then
          let off := logoff st1 env.logoffResp
          ({ source := some "uniform-soap-live"
             count := 0
             timestamp := env.now
             errors := ["No sample data found"] },
           off.1, store, [])
        else
          let imp := import_premises store sample
          let off := logoff st1 env.logoffResp
          ({ source := some "sample-data-with-soap-available"
             count := imp.2.2
             timestamp := env.now
             errors := [] },
           off.1, imp.1, imp.2.1)
  else
    let sample := env.sampleData
    let imp := if sample.isEmpty then (store, [], 0)
      else import_premises store sample
    ({ source := some "sample-data"
       count := imp.2.2
       timestamp := env.now
       errors := ["Uniform SOAP connector at " ++ connStatus.wsdl_url
         ++ " is not available: " ++ connStatus.error.getD "connection refused"
         ++ ". Using sample data."] },
     st, imp.1, imp.2.1)

/-- JSON body of a `POST /uniform/test-connection` request
(`routes/api.py`), each field possibly absent. -/
structure TestRequest where
  server : Option String
  state_switch : Option String
  database_id : Option String
  username : Option String
  password : Option String
  timeout : Option Nat
deriving Repr

/-- One entry of the `steps` list built by `test_soap_connection`:
`passed` is `some true` for a passed step, `some false` for a failed one
and `none` (Python `None`) for the skipped Authentication step. -/
structure Step where
  name : String
  passed : Option Bool
  detail : String
  aliases : Option (List AliasRec)
deriving Repr, DecidableEq

/-- Response body of `test_soap_connection` on the non-400 paths. -/
structure TestReport where
  wsdl_url : String
  steps : List Step
  success : Bool
deriving Repr

/-- HTTP response of the `test_soap_connection` route: either the 400
bad-request error for a missing server, or a step report. -/
inductive ApiResponse where
  | badRequest (error : String)
  | report (r : TestReport)
deriving Repr

/-- Environment of one `test_soap_connection` request: the outcome of the
WSDL download and parse, of `GetUniformDatabaseAliases`, of
`LogonToConnector`, of `GetConnectorLoginStatus` (its result rendered as
text) and of `LogoffFromConnector`. -/
structure TestEnv where
  wsdlResp : RemoteCall Unit
  aliasResp : RemoteCall (Option (List RawAlias))
  logonResp : LogonResp
  statusResp : RemoteCall String
  logoffResp : RemoteCall Unit

/-- Embedding of `UniformSOAPClient.get_login_status`: returns the remote
status and swallows any exception into `False`. -/
def get_login_status (resp : RemoteCall String) : String :=
  match resp with
  | .ok s => s
  | .fault _ => "False"

/-- The `all(s.passed is True for s in steps if s.passed is not None)`
computation that fills the final `success` flag. -/
def stepsSuccess (steps : List Step) : Bool :=
  steps.all (fun s => match s.passed with
    | none => true
    | some b => b)

/-- Python `str.strip`: removes leading and trailing whitespace. -/
def pyStrip (s : String) : String :=
  ⟨((s.data.dropWhile Char.isWhitespace).reverse.dropWhile Char.isWhitespace).reverse⟩

/-- Embedding of the `test_soap_connection` route (`routes/api.py`).
Steps run in order (WSDL reachability, database aliases, authentication);
when a step fails the route appends only that failed step, sets
`success := false` and returns immediately, so later steps are absent
from the report.  The Authentication step runs only when database id,
username and password are all non-empty; otherwise it is appended with
`passed := none` and the skip notice. -/
def test_soap_connection (data : TestRequest) (env : TestEnv) : ApiResponse :=
  let server := pyStrip (pyOr data.server "")
  let stateSwitch := pyStrip (pyOr data.state_switch "_TEST")
  let databaseId := pyStrip (pyOr data.database_id "")
  let username := pyStrip (pyOr data.username "")
  let password := pyStrip (pyOr data.password "")
  if server = "" then .badRequest "Server hostname is required"
  else
    let wsdlUrl := "http://" ++ server ++ "/LicensingConnectorService"
      ++ stateSwitch ++ "/LicensingConnectorServices.asmx?WSDL"
    match env.wsdlResp with
    | .fault m =>
        .report { wsdl_url := wsdlUrl
                  steps := [{ name := "WSDL Reachability", passed := some false
                              detail := m, aliases := none }]
                  success := false }
    | .ok _ =>
      let step1 : Step :=
        { name := "WSDL Reachability", passed := some true
          detail := "Successfully downloaded and parsed WSDL from " ++ wsdlUrl
          aliases := none }
      match get_database_aliases env.aliasResp with
      | .error m =>
          .report { wsdl_url := wsdlUrl
                    steps := [step1,
                      { name := "Database Aliases", passed := some false
                        detail := m, aliases := none }]
                    success := false }
      | .ok aliases =>
        let step2 : Step :=
          { name := "Database Aliases", passed := some true
            detail := "Found " ++ toString aliases.length ++ " database alias(es)"
            aliases := some aliases }
        if databaseId ≠ "" ∧ username ≠ "" ∧ password ≠ "" then
          match logon { loggedIn := false } env.logonResp with
          | (.error m, _, _) =>
              .report { wsdl_url := wsdlUrl
                        steps := [step1, step2,
                          { name := "Authentication", passed := some false
                            detail := m, aliases := none }]
                        success := false }
          | (.ok _, st1, _) =>
              let status := get_login_status env.statusResp
              let _ := logoff st1 env.logoffResp
              let step3 : Step :=
                { name := "Authentication", passed := some true
                  detail := "Login successful. Status: " ++ status
                  aliases := none }
              .report { wsdl_url := wsdlUrl
                        steps := [step1, step2, step3]
                        success := stepsSuccess [step1, step2, step3] }
        else
          let step3 : Step :=
            { name := "Authentication", passed := none
              detail := "Skipped - provide Database ID, Username & Password to test login"
              aliases := none }
          .report { wsdl_url := wsdlUrl
                    steps := [step1, step2, step3]
                    success := stepsSuccess [step1, step2, step3] }

/-- Date or datetime value delivered by the SOAP layer; `repr` is its
`str(...)` rendering.  Such values are always truthy in Python, so a
`str(x) if x else None` guard reduces to mapping over the option. -/
structure PyDate where
  repr : String
deriving Repr, DecidableEq

/-- Decimal value delivered by the SOAP layer, modelled exactly; the
`float(...)` conversions of the serializers are modelled as the identity
since the claims under proof concern only which fields are absent. -/
abbrev PyDec := Rat

/-- Python truthiness guard `float(x) if x else None` on an optional
decimal: both `None` and `0` are falsy. -/
def pyFloatIfTruthy (x : Option PyDec) : Option PyDec :=
  match x with
  | none => none
  | some c => if c = 0 then none else some c

/-- The `str(x) if x else None` pattern on an optional date value. -/
def pyStrIfTruthy (x : Option PyDate) : Option String :=
  x.map PyDate.repr

/-- Raw `ApplicationIdentification` SOAP sub-object. -/
structure RawAppIdent where
  applicationKeyValue : Option String
  referenceValue : Option String
  alternativeReference : Option String
  applicantReference : Option String
  agentReference : Option String
  warningMessage : Option String
deriving Repr, DecidableEq

/-- Raw `ContactDetail` SOAP element. -/
structure RawContact where
  contactTypeCode : Option String
  contactTypeText : Option String
  contactAddress : Option String
deriving Repr, DecidableEq

/-- Raw `ContactDetails` wrapper: its `ContactDetail` list may itself be
`None` (handled by `or []` in the source). -/
structure RawContactDetails where
  contactDetail : Option (List RawContact)
deriving Repr, DecidableEq

/-- Raw `Applicant` SOAP object. -/
structure RawApplicant where
  keyValue : Option String
  fullName : Option String
  title : Option String
  surname : Option String
  forename : Option String
  address : Option String
  dob : Option PyDate
  organisation : Option String
  tradingName : Option String
  jobTitle : Option String
  alternativeRef : Option String
  contactDetails : Option RawContactDetails
deriving Repr, DecidableEq

/-- Raw `Applicants` wrapper around the `Applicant` list. -/
structure RawApplicants where
  applicant : Option (List RawApplicant)
deriving Repr, DecidableEq

/-- Raw `SubmittedSiteLocation` SOAP sub-object (`Occuiper` is the typo
in the remote schema). -/
structure RawSiteLocation where
  uprn : Option String
  address : Option String
  mapEast : Option String
  mapNorth : Option String
  occuiper : Option String
  tradingAs : Option String
  ward : Option String
deriving Repr, DecidableEq

/-- Raw `Licence` SOAP sub-object. -/
structure RawLicence where
  licenceType : Option String
  licenceCaseType : Option String
  licenceDetails : Option String
  licenceStatus : Option String
  dateReceived : Option PyDate
  applicationDate : Option PyDate
  totalCost : Option PyDec
  fromDate : Option PyDate
  toDate : Option PyDate
  validFrom : Option PyDate
  issued : Option PyDate
  renewalDate : Option PyDate
deriving Repr, DecidableEq

/-- Raw `Activity` SOAP element. -/
structure RawActivity where
  activityType : Option String
  timePeriod : Option String
  startDate : Option PyDate
  endDate : Option PyDate
  startTime : Option String
  endTime : Option String
  capacity : Option PyDec
  location : Option String
  comments : Option String
deriving Repr, DecidableEq

/-- Raw `Activities` wrapper around the `Activity` list. -/
structure RawActivities where
  activity : Option (List RawActivity)
deriving Repr, DecidableEq

/-- Raw `Payment` SOAP element. -/
structure RawPayment where
  receiptNumber : Option String
  paymentType : Option String
  description : Option String
  paymentDue : Option PyDec
  paid : Option PyDec
  paymentDate : Option PyDate
deriving Repr, DecidableEq

/-- Raw `Payments` wrapper around the `Payment` list. -/
structure RawPayments where
  payment : Option (List RawPayment)
deriving Repr, DecidableEq

/-- Raw `LiXtra` SOAP element (fee or extra-field line item). -/
structure RawLiXtra where
  fieldDescription : Option String
  fieldName : Option String
  fieldType : Option String
  fieldValue : Option String
  rowNo : Option PyDec
deriving Repr, DecidableEq

/-- Raw `LiXtras` wrapper around the `LiXtra` list. -/
structure RawLiXtras where
  liXtra : Option (List RawLiXtra)
deriving Repr, DecidableEq

/-- Raw `GeneralLicensingApplication` SOAP object; every nested group may
be `None`. -/
structure RawApplication where
  applicationIdentification : Option RawAppIdent
  applicants : Option RawApplicants
  submittedSiteLocation : Option RawSiteLocation
  applicationType : Option String
  licence : Option RawLicence
  activities : Option RawActivities
  payments : Option RawPayments
  liXtras : Option RawLiXtras
deriving Repr, DecidableEq

/-- Normalized `application_identification` dictionary. -/
structure SerAppIdent where
  key_value : Option String
  reference_value : Option String
  alternative_reference : Option String
  applicant_reference : Option String
  agent_reference : Option String
  warning_message : Option String
deriving Repr, DecidableEq

/-- Normalized contact dictionary. -/
structure SerContact where
  type_code : Option String
  type_text : Option String
  address : Option String
deriving Repr, DecidableEq

/-- Normalized applicant dictionary; `contact_details` is always present
and is the empty list when the raw contact group is absent. -/
structure SerApplicant where
  key_value : Option String
  full_name : Option String
  title : Option String
  surname : Option String
  forename : Option String
  address : Option String
  dob : Option String
  organisation : Option String
  trading_name : Option String
  job_title : Option String
  alternative_ref : Option String
  contact_details : List SerContact
deriving Repr, DecidableEq

/-- Normalized `site_location` dictionary. -/
structure SerSiteLocation where
  uprn : Option String
  address : Option String
  map_east : Option String
  map_north : Option String
  occupier : Option String
  trading_as : Option String
  ward : Option String
deriving Repr, DecidableEq

/-- Normalized `licence` dictionary. -/
structure SerLicence where
  licence_type : Option String
  licence_case_type : Option String
  licence_details : Option String
  licence_status : Option String
  date_received : Option String
  application_date : Option String
  total_cost : Option PyDec
  from_date : Option String
  to_date : Option String
  valid_from : Option String
  issued : Option String
  renewal_date : Option String
deriving Repr, DecidableEq

/-- Normalized activity dictionary. -/
structure SerActivity where
  activity_type : Option String
  time_period : Option String
  start_date : Option String
  end_date : Option String
  start_time : Option String
  end_time : Option String
  capacity : Option PyDec
  location : Option String
  comments : Option String
deriving Repr, DecidableEq

/-- Normalized payment dictionary. -/
structure SerPayment where
  receipt_number : Option String
  payment_type : Option String
  description : Option String
  payment_due : Option PyDec
  paid : Option PyDec
  payment_date : Option String
deriving Repr, DecidableEq

/-- Normalized LiXtra dictionary. -/
structure SerLiXtra where
  field_description : Option String
  field_name : Option String
  field_type : Option String
  field_value : Option String
  row_no : Option PyDec
deriving Repr, DecidableEq

/-- Normalized application dictionary built by `_serialize_application`;
an `Option` group field is `none` exactly when the source group was
absent and the corresponding key was never added to the result dict. -/
structure SerApplication where
  application_identification : Option SerAppIdent
  applicants : Option (List SerApplicant)
  site_location : Option SerSiteLocation
  application_type : Option String
  licence : Option SerLicence
  activities : Option (List SerActivity)
  payments : Option (List SerPayment)
  li_xtras : Option (List SerLiXtra)
deriving Repr, DecidableEq

/-- Embedding of `UniformSOAPClient._serialize_applicant`: plain fields
pass through, `DOB` is rendered with `str` when present, and the
`contact_details` key is always set — to the empty list when the raw
`ContactDetails` group is absent. -/
def serialize_applicant (a : RawApplicant) : SerApplicant :=
  let contacts :=
    match a.contactDetails with
    | none => []
    | some cd => (cd.contactDetail.getD []).map (fun c =>
        ({ type_code := c.contactTypeCode
           type_text := c.contactTypeText
           address := c.contactAddress } : SerContact))
  { key_value := a.keyValue
    full_name := a.fullName
    title := a.title
    surname := a.surname
    forename := a.forename
    address := a.address
    dob := pyStrIfTruthy a.dob
    organisation := a.organisation
    trading_name := a.tradingName
    job_title := a.jobTitle
    alternative_ref := a.alternativeRef
    contact_details := contacts }

/-- Embedding of `UniformSOAPClient._serialize_application`: returns
`none` for a `None` top-level input; each nested group key is added only
when the raw group is present (an absent group leaves the key absent —
modelled as `none` — rather than producing an empty list); optional
scalar fields map absence to `none`, never to a default. -/
def serialize_application (app : Option RawApplication) :
    Option SerApplication :=
  match app with
  | none => none
  | some app =>
    some
      { application_identification := app.applicationIdentification.map
          (fun ai =>
            { key_value := ai.applicationKeyValue
              reference_value := ai.referenceValue
              alternative_reference := ai.alternativeReference
              applicant_reference := ai.applicantReference
              agent_reference := ai.agentReference
              warning_message := ai.warningMessage })
        applicants := app.applicants.map
          (fun aps => (aps.applicant.getD []).map serialize_applicant)
        site_location := app.submittedSiteLocation.map
          (fun loc =>
            { uprn := loc.uprn
              address := loc.address
              map_east := loc.mapEast
              map_north := loc.mapNorth
              occupier := loc.occuiper
              trading_as := loc.tradingAs
              ward := loc.ward })
        application_type := app.applicationType
        licence := app.licence.map
          (fun lic =>
            { licence_type := lic.licenceType
              licence_case_type := lic.licenceCaseType
              licence_details := lic.licenceDetails
              licence_status := lic.licenceStatus
              date_received := pyStrIfTruthy lic.dateReceived
              application_date := pyStrIfTruthy lic.applicationDate
              total_cost := lic.totalCost
              from_date := pyStrIfTruthy lic.fromDate
              to_date := pyStrIfTruthy lic.toDate
              valid_from := pyStrIfTruthy lic.validFrom
              issued := pyStrIfTruthy lic.issued
              renewal_date := pyStrIfTruthy lic.renewalDate })
        activities := app.activities.map
          (fun acts => (acts.activity.getD []).map (fun act =>
            ({ activity_type := act.activityType
               time_period := act.timePeriod
               start_date := pyStrIfTruthy act.startDate
               end_date := pyStrIfTruthy act.endDate
               start_time := act.startTime
               end_time := act.endTime
               capacity := pyFloatIfTruthy act.capacity
               location := act.location
               comments := act.comments } : SerActivity)))
        payments := app.payments.map
          (fun pays => (pays.payment.getD []).map (fun pay =>
            ({ receipt_number := pay.receiptNumber
               payment_type := pay.paymentType
               description := pay.description
               payment_due := pay.paymentDue
               paid := pay.paid
               payment_date := pyStrIfTruthy pay.paymentDate } : SerPayment)))
        li_xtras := app.liXtras.map
          (fun xs => (xs.liXtra.getD []).map (fun x =>
            ({ field_description := x.fieldDescription
               field_name := x.fieldName
               field_type := x.fieldType
               field_value := x.fieldValue
               row_no := x.rowNo } : SerLiXtra))) }

/-! Helper lemmas shared by the claim theorems. -/

/-- The write trace of one `importOne` step contains exactly one premises
insert. -/
lemma importOne_ops_premises_count (store : Store) (p : RawPremise) :
    ((importOne store p).2.filter WriteOp.isPremisesInsert).length = 1 := by
  unfold importOne
  simp only [List.filter_cons, List.filter_append]
  induction p.previousActions.getD [] with
  | nil => rfl
  | cons a as ih =>
      simp only [List.map_cons, List.filter, WriteOp.isPremisesInsert] at ih ⊢
      exact ih

/-- Generalized accumulator form of the premises-write count of
`import_premises`. -/
lemma import_premises_go_count (ps : List RawPremise) :
    ∀ (store : Store) (acc : List WriteOp),
    ((ps.foldl
        (fun (acc : Store × List WriteOp) p =>
          let step := importOne acc.1 p
          (step.1, acc.2 ++ step.2))
        (store, acc)).2.filter WriteOp.isPremisesInsert).length
      = (acc.filter WriteOp.isPremisesInsert).length + ps.length := by
  induction ps with
  | nil => intro store acc; simp
  | cons p ps ih =>
      intro store acc
      simp only [List.foldl_cons]
      rw [ih]
      simp [List.filter_append, importOne_ops_premises_count]
      omega

/-- The count returned by `import_premises` equals the number of premises
rows it actually writes. -/
lemma import_premises_count_eq_writes (store : Store) (ps : List RawPremise) :
    (import_premises store ps).2.2
      = (((import_premises store ps).2.1).filter WriteOp.isPremisesInsert).length := by
  unfold import_premises
  have h := import_premises_go_count ps store []
  simp only at h ⊢
  rw [h]
  simp

/-- C4: for every configuration, `test_connection` is a total function
(it never raises): on any transport or protocol fault with message `m`
it returns `connected = false` with `error = some m`, which is non-empty
whenever the fault text is, and on a successful enumeration response `r`
it returns `connected = true` with the well-formed (possibly empty)
serialized alias list. -/
theorem test_connection_total_and_translates (cfg : ClientConfig)
    (m : String) (hm : m ≠ "") (r : Option (List RawAlias)) :
    (test_connection cfg (.fault m)).connected = false ∧
    (∃ e, (test_connection cfg (.fault m)).error = some e ∧ e ≠ "") ∧
    (test_connection cfg (.ok r)).connected = true ∧
    (test_connection cfg (.ok r)).databases
      = some ((r.getD []).map serializeAlias) := by
  refine ⟨rfl, ⟨m, rfl, hm⟩, ?_, ?_⟩ <;> cases r <;> rfl

/-- Witness for C4 at a concrete configuration, fault message and alias
response. -/
theorem test_connection_total_and_translates_witness :
    (test_connection
        { wsdlUrl := "http://uniform.example.org/LicensingConnectorService_TEST/LicensingConnectorServices.asmx?WSDL"
          databaseId := "GLOUCESTER", username := "officer"
          password := "pw", timeout := 30 }
        (.fault "connection refused")).connected = false ∧
    (∃ e, (test_connection
        { wsdlUrl := "http://uniform.example.org/LicensingConnectorService_TEST/LicensingConnectorServices.asmx?WSDL"
          databaseId := "GLOUCESTER", username := "officer"
          password := "pw", timeout := 30 }
        (.fault "connection refused")).error = some e ∧ e ≠ "") ∧
    (test_connection
        { wsdlUrl := "http://uniform.example.org/LicensingConnectorService_TEST/LicensingConnectorServices.asmx?WSDL"
          databaseId := "GLOUCESTER", username := "officer"
          password := "pw", timeout := 30 }
        (.ok (some [{ databaseId := "GLOUCESTER", description := "Live"
                      isActive := true, uniformWSURL := "http://u" }]))).connected = true ∧
    (test_connection
        { wsdlUrl := "http://uniform.example.org/LicensingConnectorService_TEST/LicensingConnectorServices.asmx?WSDL"
          databaseId := "GLOUCESTER", username := "officer"
          password := "pw", timeout := 30 }
        (.ok (some [{ databaseId := "GLOUCESTER", description := "Live"
                      isActive := true, uniformWSURL := "http://u" }]))).databases
      = some (((some [({ databaseId := "GLOUCESTER", description := "Live"
                         isActive := true, uniformWSURL := "http://u" } : RawAlias)]).getD []).map serializeAlias) :=
  test_connection_total_and_translates _ "connection refused" (by decide) _

/-- C8: `check_application_exists` keeps the not-found outcome and the
transport failure apart: a `None` remote response yields
`{licence_exists: false, licence_valid: false}` without raising, a
transport fault with message `m` raises it to the caller, and a present
response passes the two remote booleans through. -/
theorem check_application_exists_distinguishes (m : String)
    (r : RawExistsResult) :
    check_application_exists (.ok none)
      = .ok { licence_exists := false, licence_valid := false } ∧
    check_application_exists (.fault m) = .error m ∧
    check_application_exists (.ok (some r))
      = .ok { licence_exists := r.licenceExists
              licence_valid := r.licenceValid } :=
  ⟨rfl, rfl, rfl⟩

/-- C10: `logon` ignores the current logged-in flag `b` (calling it while
already logged in is neither rejected nor a no-op — the remote call event
is always recorded), and afterwards the flag reflects only the latest
outcome: set on success, cleared before the `ConnectionError` is raised
when the remote reports authentication failure. -/
theorem logon_always_calls_and_sets_flag (b : Bool) (msg : Option String) :
    logon { loggedIn := b } (.ok true msg)
      = (.ok true, { loggedIn := true }, [.logonCall]) ∧
    logon { loggedIn := b } (.ok false msg)
      = (.error ("Uniform login failed: " ++ pyOr msg "Login failed"),
         { loggedIn := false }, [.logonCall]) :=
  ⟨rfl, rfl⟩

/-- C5 counterexample: a concrete scope in which the session opens, the
body raises, and the remote logoff call itself fails.  The `finally`
clause runs `logoff` (and swallows the failure), but because
`_logged_in = False` is assigned only after the remote call returns, the
logged-in flag is still `true` after the scope — contradicting the claim
that it is false after every scope whose body always throws. -/
theorem session_flag_after_throwing_body_counterexample :
    (session { loggedIn := false } (.ok true none)
        (Except.error "body failure" : Except String Nat)
        (.fault "logoff network failure")).1 = .error "body failure" ∧
    (session { loggedIn := false } (.ok true none)
        (Except.error "body failure" : Except String Nat)
        (.fault "logoff network failure")).2.1 = { loggedIn := true } :=
  ⟨rfl, rfl⟩

/-- C5 amended: whenever the session opens (logon reports success),
`logoff` runs exactly once on both the normal and the raising exit path
of the body; after a scope whose body throws the logged-in flag is false
provided the remote logoff call itself succeeds, while a failing remote
logoff is swallowed and leaves the flag set; and when opening the session
fails the body result is that error and `logoff` never runs. -/
theorem session_logoff_exactly_once (st : ClientState) (msg : Option String)
    (e fm : String) (x : Nat) (off : RemoteCall Unit) :
    ((session st (.ok true msg) (Except.ok x) off).2.2.count .logoffInvoked
      = 1) ∧
    ((session st (.ok true msg) (Except.error e : Except String Nat)
        off).2.2.count .logoffInvoked = 1) ∧
    ((session st (.ok true msg) (Except.error e : Except String Nat)
        (.ok ())).2.1.loggedIn = false) ∧
    ((session st (.ok true msg) (Except.error e : Except String Nat)
        (.fault fm)).2.1.loggedIn = true) ∧
    ((session st (.fault fm) (Except.ok x) off).1
        = (.error fm : Except String Nat)) ∧
    ((session st (.fault fm) (Except.ok x) off).2.2.count .logoffInvoked
      = 0) := by
  refine ⟨?_, ?_, rfl, rfl, rfl, rfl⟩ <;>
    cases off <;> rfl

/-- C2: when the connectivity probe raises (endpoint unreachable) the
sync report has `source = "sample-data"` (the code spelling of the
bundled-sample outcome), `count` equal to the size of the bundled
dataset, and a single error note naming the endpoint URL and the
underlying cause. -/
theorem sync_premises_unreachable_uses_sample (cfg : ClientConfig)
    (m : String) (lr : LogonResp) (lo : RemoteCall Unit)
    (sample : List RawPremise) (now : String) (st : ClientState)
    (store : Store) :
    let out := sync_premises cfg
      { probeResp := .fault m, logonResp := lr, logoffResp := lo
        sampleData := sample, now := now } st store
    out.1.source = some "sample-data" ∧
    out.1.count = sample.length ∧
    out.1.errors = ["Uniform SOAP connector at " ++ cfg.wsdlUrl
      ++ " is not available: " ++ m ++ ". Using sample data."] := by
  cases sample <;>
    exact ⟨rfl, rfl, rfl⟩

/-- C3: when the probe succeeds (endpoint reachable) and the session
opens, the live connector yields no full-catalog records (there is no
such endpoint), so the bundled dataset — here non-empty — is imported in
its place: `source = "sample-data-with-soap-available"` (the code
spelling of the live-unavailable fallback) and `count` equals the
bundled dataset size. -/
theorem sync_premises_live_falls_back_to_sample (cfg : ClientConfig)
    (r : Option (List RawAlias)) (msg : Option String) (lo : RemoteCall Unit)
    (p : RawPremise) (ps : List RawPremise) (now : String)
    (st : ClientState) (store : Store) :
    let out := sync_premises cfg
      { probeResp := .ok r, logonResp := .ok true msg, logoffResp := lo
        sampleData := p :: ps, now := now } st store
    out.1.source = some "sample-data-with-soap-available" ∧
    out.1.count = (p :: ps).length := by
  cases r <;> exact ⟨rfl, rfl⟩

/-- C9: when the probe succeeds, the session opens, and the bundled
dataset is empty, the report keeps the live marker
`source = "uniform-soap-live"`, has `count = 0`, carries the single note
"No sample data found", and no write reaches the local store. -/
theorem sync_premises_connected_empty_sample (cfg : ClientConfig)
    (r : Option (List RawAlias)) (msg : Option String) (lo : RemoteCall Unit)
    (now : String) (st : ClientState) (store : Store) :
    let out := sync_premises cfg
      { probeResp := .ok r, logonResp := .ok true msg, logoffResp := lo
        sampleData := [], now := now } st store
    out.1.count = 0 ∧
    out.1.errors = ["No sample data found"] ∧
    out.1.source = some "uniform-soap-live" ∧
    out.2.2.2 = [] ∧
    out.2.2.1 = store := by
  cases r <;> exact ⟨rfl, rfl, rfl, rfl, rfl⟩

/-- C1: for every configuration, every outcome of the remote connector
(probe result, logon result, logoff result) and every bundled dataset,
`sync_premises` returns a report — it is a total function, so no
connector outcome makes it raise — whose `source` is one of the four
defined values (`"uniform-soap-live"`, `"sample-data-with-soap-available"`,
`"sample-data-fallback"`, `"sample-data"`: the code spellings of the live,
live-unavailable-fallback, cache-fallback and bundled-sample outcomes)
and whose `count` equals the number of premises records actually written
to the local store during that call. -/
theorem sync_premises_always_reports (cfg : ClientConfig) (env : SyncEnv)
    (st : ClientState) (store : Store) :
    ((sync_premises cfg env st store).1.source = some "uniform-soap-live" ∨
     (sync_premises cfg env st store).1.source = some "sample-data-with-soap-available" ∨
     (sync_premises cfg env st store).1.source = some "sample-data-fallback" ∨
     (sync_premises cfg env st store).1.source = some "sample-data") ∧
    (sync_premises cfg env st store).1.count
      = (((sync_premises cfg env st store).2.2.2).filter
          WriteOp.isPremisesInsert).length := by
  obtain ⟨probe, lr, lo, sample, now⟩ := env
  cases probe with
  | fault m =>
      cases sample with
      | nil => exact ⟨Or.inr (Or.inr (Or.inr rfl)), rfl⟩
      | cons p ps =>
          exact ⟨Or.inr (Or.inr (Or.inr rfl)),
            import_premises_count_eq_writes store (p :: ps)⟩
  | ok r =>
      cases r with
      | none =>
          cases lr with
          | fault m =>
              cases sample with
              | nil => exact ⟨Or.inr (Or.inr (Or.inl rfl)), rfl⟩
              | cons p ps =>
                  exact ⟨Or.inr (Or.inr (Or.inl rfl)),
                    import_premises_count_eq_writes store (p :: ps)⟩
          | ok success msg =>
              cases success with
              | true =>
                  cases sample with
                  | nil => exact ⟨Or.inl rfl, rfl⟩
                  | cons p ps =>
                      exact ⟨Or.inr (Or.inl rfl),
                        import_premises_count_eq_writes store (p :: ps)⟩
              | false =>
                  cases sample with
                  | nil => exact ⟨Or.inr (Or.inr (Or.inl rfl)), rfl⟩
                  | cons p ps =>
                      exact ⟨Or.inr (Or.inr (Or.inl rfl)),
                        import_premises_count_eq_writes store (p :: ps)⟩
      | some l =>
          cases lr with
          | fault m =>
              cases sample with
              | nil => exact ⟨Or.inr (Or.inr (Or.inl rfl)), rfl⟩
              | cons p ps =>
                  exact ⟨Or.inr (Or.inr (Or.inl rfl)),
                    import_premises_count_eq_writes store (p :: ps)⟩
          | ok success msg =>
              cases success with
              | true =>
                  cases sample with
                  | nil => exact ⟨Or.inl rfl, rfl⟩
                  | cons p ps =>
                      exact ⟨Or.inr (Or.inl rfl),
                        import_premises_count_eq_writes store (p :: ps)⟩
              | false =>
                  cases sample with
                  | nil => exact ⟨Or.inr (Or.inr (Or.inl rfl)), rfl⟩
                  | cons p ps =>
                      exact ⟨Or.inr (Or.inr (Or.inl rfl)),
                        import_premises_count_eq_writes store (p :: ps)⟩

/-- Condition of the route for running the Authentication step: database
id, username and password all non-empty after stripping. -/
def credsComplete (data : TestRequest) : Bool :=
  decide (pyStrip (pyOr data.database_id "") ≠ "" ∧
          pyStrip (pyOr data.username "") ≠ "" ∧
          pyStrip (pyOr data.password "") ≠ "")

/-- C6 counterexample: a request with full credentials against an
endpoint whose WSDL download fails.  The report contains only the single
failed step — the Database Aliases and Authentication steps are absent
from the report entirely, not marked Skipped — refuting the claim that
every subsequent step is marked Skipped when a step fails. -/
theorem test_soap_connection_omitted_steps_counterexample :
    test_soap_connection
        { server := some "uniform.example.org", state_switch := none
          database_id := some "GLOUCESTER", username := some "officer"
          password := some "secret", timeout := none }
        { wsdlResp := .fault "connection refused"
          aliasResp := .ok none, logonResp := .ok true none
          statusResp := .ok "True", logoffResp := .ok () }
      = .report
          { wsdl_url := "http://uniform.example.org/LicensingConnectorService_TEST/LicensingConnectorServices.asmx?WSDL"
            steps := [{ name := "WSDL Reachability", passed := some false
                        detail := "connection refused", aliases := none }]
            success := false } ∧
    ([{ name := "WSDL Reachability", passed := some false
        detail := "connection refused", aliases := none }] : List Step).length
      = 1 := by
  exact ⟨rfl, rfl⟩

/-- C6 amended: in every report produced with a non-empty server name, a
failed step is always the last entry (the route returns immediately, so
subsequent steps are omitted from the report rather than marked
Skipped); a step with `passed = none` (Skipped) can only be the
Authentication step; the Authentication step, whenever it appears, is
Skipped exactly when the caller did not supply full credentials — a
state distinct from both `some true` and `some false`. -/
theorem test_soap_connection_steps_amended (data : TestRequest)
    (env : TestEnv) (hs : pyStrip (pyOr data.server "") ≠ "") :
    ∃ r, test_soap_connection data env = .report r ∧
      (∀ s ∈ r.steps.dropLast, s.passed ≠ some false) ∧
      (∀ s ∈ r.steps, s.passed = none → s.name = "Authentication") ∧
      (credsComplete data = false →
        ∀ s ∈ r.steps, s.name = "Authentication" → s.passed = none) ∧
      (credsComplete data = true →
        ∀ s ∈ r.steps, s.passed ≠ none) := by
  unfold test_soap_connection
  rw [if_neg hs]
  cases env.wsdlResp with
  | fault m =>
      refine ⟨_, rfl, ?_, ?_, ?_, ?_⟩ <;> simp
  | ok u =>
      cases hga : get_database_aliases env.aliasResp with
      | error m =>
          refine ⟨_, rfl, ?_, ?_, ?_, ?_⟩ <;> simp
      | ok aliases =>
          by_cases hc : (pyStrip (pyOr data.database_id "") ≠ "" ∧
              pyStrip (pyOr data.username "") ≠ "" ∧
              pyStrip (pyOr data.password "") ≠ "")
          · simp only [if_pos hc]
            have hcc : credsComplete data = true := by
              simp [credsComplete, hc]
            cases env.logonResp with
            | fault m =>
                refine ⟨_, rfl, ?_, ?_, ?_, ?_⟩ <;> simp [hcc]
            | ok success msg =>
                cases success with
                | true =>
                    refine ⟨_, rfl, ?_, ?_, ?_, ?_⟩ <;> simp [hcc]
                | false =>
                    refine ⟨_, rfl, ?_, ?_, ?_, ?_⟩ <;> simp [hcc]
          · simp only [if_neg hc]
            have hcc : credsComplete data = false := by
              simp [credsComplete]
              tauto
            refine ⟨_, rfl, ?_, ?_, ?_, ?_⟩ <;> simp [hcc]

/-- Witness for C6 at a concrete request without credentials against a
healthy endpoint: the report exists and satisfies the amended step
properties. -/
theorem test_soap_connection_steps_amended_witness :
    ∃ r, test_soap_connection
        { server := some "uniform.example.org", state_switch := none
          database_id := none, username := none
          password := none, timeout := none }
        { wsdlResp := .ok (), aliasResp := .ok none
          logonResp := .ok true none, statusResp := .ok "True"
          logoffResp := .ok () }
      = .report r ∧
      (∀ s ∈ r.steps.dropLast, s.passed ≠ some false) ∧
      (∀ s ∈ r.steps, s.passed = none → s.name = "Authentication") ∧
      (credsComplete
          { server := some "uniform.example.org", state_switch := none
            database_id := none, username := none
            password := none, timeout := none } = false →
        ∀ s ∈ r.steps, s.name = "Authentication" → s.passed = none) ∧
      (credsComplete
          { server := some "uniform.example.org", state_switch := none
            database_id := none, username := none
            password := none, timeout := none } = true →
        ∀ s ∈ r.steps, s.passed ≠ none) :=
  test_soap_connection_steps_amended _ _ (by decide)

/-- Raw application with every optional field and every nested group
absent. -/
def allAbsentRawApplication : RawApplication :=
  { applicationIdentification := none, applicants := none
    submittedSiteLocation := none, applicationType := none
    licence := none, activities := none, payments := none
    liXtras := none }

/-- Raw licence sub-object with every field absent. -/
def allAbsentRawLicence : RawLicence :=
  { licenceType := none, licenceCaseType := none, licenceDetails := none
    licenceStatus := none, dateReceived := none, applicationDate := none
    totalCost := none, fromDate := none, toDate := none, validFrom := none
    issued := none, renewalDate := none }

/-- Raw applicant with every field and the contact group absent. -/
def allAbsentRawApplicant : RawApplicant :=
  { keyValue := none, fullName := none, title := none, surname := none
    forename := none, address := none, dob := none, organisation := none
    tradingName := none, jobTitle := none, alternativeRef := none
    contactDetails := none }

/-- Raw application whose repeated groups are absent but whose licence
sub-object is present with all of its own fields absent. -/
def exRawApplication : RawApplication :=
  { allAbsentRawApplication with licence := some allAbsentRawLicence }

/-- C7 counterexample: serializing an application whose repeated groups
(applicants, activities, payments, fee line items) are all absent leaves
the corresponding keys absent from the normalized record — `none`, not
an empty ordered sequence — refuting the claim that an absent repeated
group normalizes to an empty sequence.  (Only the per-applicant contacts
group normalizes to the empty list.) -/
theorem serialize_application_absent_group_counterexample :
    serialize_application (some allAbsentRawApplication)
      = some { application_identification := none, applicants := none
               site_location := none, application_type := none
               licence := none, activities := none, payments := none
               li_xtras := none } ∧
    (serialize_application (some allAbsentRawApplication)).map
        SerApplication.activities ≠ some (some []) ∧
    (serialize_application (some allAbsentRawApplication)).map
        SerApplication.applicants ≠ some (some []) :=
  ⟨rfl, by decide, by decide⟩

/-- C7 amended: normalization maps absence to explicit absence for
scalar fields — an absent or null source field yields `none`, never a
numeric or boolean default (in particular an absent `TotalCost` yields
`none`, not `0.0`, and an absent `DOB` yields `none`) — and an absent
contacts group on an applicant yields the empty sequence; but an absent
repeated group on the application itself (applicants, activities,
payments, fee line items) leaves the corresponding key absent from the
normalized record (`none`), not an empty sequence. -/
theorem serialize_application_absence_amended
    (app : RawApplication) (lic : RawLicence) (a : RawApplicant)
    (hact : app.activities = none) (hpay : app.payments = none)
    (happs : app.applicants = none) (hx : app.liXtras = none)
    (hlic : app.licence = some lic)
    (hcost : lic.totalCost = none) (hdate : lic.dateReceived = none)
    (hdob : a.dob = none) (hcd : a.contactDetails = none) :
    ∃ r, serialize_application (some app) = some r ∧
      r.activities = none ∧ r.payments = none ∧ r.applicants = none ∧
      r.li_xtras = none ∧
      (∃ rl, r.licence = some rl ∧ rl.total_cost = none ∧
        rl.date_received = none) ∧
      (serialize_applicant a).dob = none ∧
      (serialize_applicant a).contact_details = [] := by
  refine ⟨_, rfl, ?_, ?_, ?_, ?_, ?_, ?_, ?_⟩
  · show app.activities.map _ = none
    rw [hact]; rfl
  · show app.payments.map _ = none
    rw [hpay]; rfl
  · show app.applicants.map _ = none
    rw [happs]; rfl
  · show app.liXtras.map _ = none
    rw [hx]; rfl
  · show ∃ rl, app.licence.map _ = some rl ∧ _
    rw [hlic]
    exact ⟨_, rfl, hcost, by
      show pyStrIfTruthy lic.dateReceived = none
      rw [hdate]; rfl⟩
  · show pyStrIfTruthy a.dob = none
    rw [hdob]; rfl
  · simp [serialize_applicant, hcd]

/-- Witness for C7 at the all-absent raw inputs. -/
theorem serialize_application_absence_amended_witness :
    ∃ r, serialize_application (some exRawApplication) = some r ∧
      r.activities = none ∧ r.payments = none ∧ r.applicants = none ∧
      r.li_xtras = none ∧
      (∃ rl, r.licence = some rl ∧ rl.total_cost = none ∧
        rl.date_received = none) ∧
      (serialize_applicant allAbsentRawApplicant).dob = none ∧
      (serialize_applicant allAbsentRawApplicant).contact_details = [] :=
  serialize_application_absence_amended exRawApplication allAbsentRawLicence
    allAbsentRawApplicant rfl rfl rfl rfl rfl rfl rfl rfl rfl

end Uniform
